import Mathlib

/-!
Shallow embedding of the jay J1939 library (headers under `src/include/jay`)
and proofs about the claims of its specification.

Machine integers are modelled as `Nat` with explicit truncation where the
C++ types truncate: `u8` models a `std::uint8_t` parameter or cast, `u16`
a `std::uint16_t` cast.  Maps are modelled as functions to `Option` or as
association lists where iteration order matters.  Fallible C++ code
(`std::unordered_map::at` on a missing key throws) is modelled with
`Option`.
-/

namespace Jay

/-- Truncation to 8 bits, modelling a `std::uint8_t` cast or parameter. -/
def u8 (x : Nat) : Nat := x % 256

/-- `J1939_MAX_UNICAST_ADDR` from `j1939.hpp` / `j1939_type.hpp`. -/
def J1939_MAX_UNICAST_ADDR : Nat := 0xFD

/-- `J1939_IDLE_ADDR` from `j1939.hpp` / `j1939_type.hpp`. -/
def J1939_IDLE_ADDR : Nat := 0xFE

/-- `J1939_NO_ADDR` from `j1939.hpp` / `j1939_type.hpp`. -/
def J1939_NO_ADDR : Nat := 0xFF

/-- `J1939_PGN_REQUEST` from `j1939.hpp`. -/
def J1939_PGN_REQUEST : Nat := 0x0EA00

/-- `J1939_PGN_ADDRESS_CLAIMED` from `j1939.hpp`. -/
def J1939_PGN_ADDRESS_CLAIMED : Nat := 0x0EE00

/-- `J1939_PGN_PDU1_MAX` from `j1939.hpp`. -/
def J1939_PGN_PDU1_MAX : Nat := 0x3FF00

/-- `PF_PDU1_MAX` from `j1939_type.hpp`. -/
def PF_PDU1_MAX : Nat := 0xEF

/-- `PF_ADDRESS_CLAIM` from `j1939_type.hpp`. -/
def PF_ADDRESS_CLAIM : Nat := 0xEE

/-- `PF_REQUEST` from `j1939_type.hpp`. -/
def PF_REQUEST : Nat := 0xEA

/-- `PGN_TP_CM` from `transport_protocol.hpp`. -/
def PGN_TP_CM : Nat := 0x00EC00

/-- `PGN_TP_DT` from `transport_protocol.hpp`. -/
def PGN_TP_DT : Nat := 0x00EB00

/-! ### Bit-manipulation helper lemmas -/

/-- Disjoint bitwise-or is addition: if `a` has no bits below `k` and `b`
only bits below `k`, then `a ||| b = a + b`. -/
theorem lor_eq_add_of_disjoint {a b k : Nat} (ha : a % 2 ^ k = 0) (hb : b < 2 ^ k) :
    a ||| b = a + b := by
  have h2 : a = 2 ^ k * (a / 2 ^ k) := by
    conv_lhs => rw [← Nat.div_add_mod a (2 ^ k)]
    omega
  rw [h2, ← Nat.mul_add_lt_is_or hb]

/-- Bitwise-and with a contiguous mask of `k` ones shifted up by `s`
extracts the corresponding bit field (still shifted). -/
theorem and_shifted_mask (v s k : Nat) :
    v &&& ((2 ^ k - 1) <<< s) = v / 2 ^ s % 2 ^ k * 2 ^ s := by
  apply Nat.eq_of_testBit_eq
  intro i
  rw [Nat.testBit_and, Nat.testBit_shiftLeft, Nat.testBit_two_pow_sub_one]
  rw [Nat.mul_comm, Nat.testBit_mul_pow_two, Nat.testBit_mod_two_pow]
  rcases Nat.lt_or_ge i s with h | h
  · simp [Nat.not_le.2 h]
  · have hdiv : v / 2 ^ s = v >>> s := (Nat.shiftRight_eq_div_pow v s).symm
    rw [hdiv, Nat.testBit_shiftRight]
    have hsi : s + (i - s) = i := by omega
    rw [hsi]
    simp [h, Bool.and_comm]

/-- Bitwise-and with a low mask of `k` ones is reduction mod `2 ^ k`
(restatement of the library lemma with the mask written as a literal
subtraction). -/
theorem and_low_mask (v k : Nat) : v &&& (2 ^ k - 1) = v % 2 ^ k :=
  Nat.and_pow_two_sub_one_eq_mod v k

/-! ### NAME (`name.hpp`) -/

/-- `name::operator std::array<std::uint8_t, 8>` from `name.hpp`: the
little-endian 8-byte payload of a NAME. -/
def name_payload (n : Nat) : List Nat :=
  [u8 n, u8 (n >>> 8), u8 (n >>> 16), u8 (n >>> 24),
   u8 (n >>> 32), u8 (n >>> 40), u8 (n >>> 48), u8 (n >>> 56)]

/-- `name::name(const std::array<uint8_t, 8> &)` from `name.hpp`: build a
NAME from a frame payload by or-ing shifted bytes into an initially zero
value. -/
def name_of_payload (p : List Nat) : Nat :=
  0 ||| p.getD 0 0 ||| p.getD 1 0 <<< 8 ||| p.getD 2 0 <<< 16 ||| p.getD 3 0 <<< 24
    ||| p.getD 4 0 <<< 32 ||| p.getD 5 0 <<< 40 ||| p.getD 6 0 <<< 48 ||| p.getD 7 0 <<< 56

/-- `name::self_config_address()` from `name.hpp`: the most significant
bit of the 64-bit NAME. -/
def name_self_config_address (n : Nat) : Nat :=
  (n &&& 0x8000000000000000) >>> 63

/-- `name::has_priority_over` is called by `network.hpp` but declared in a
revision of `name.hpp` that is not under `src`.  Modelled from the spec:
"If `name < other` (we have priority)" — a NAME has priority over another
iff it is numerically smaller. -/
def has_priority_over (a b : Nat) : Bool := a < b

/-! ### Frame header (`header.hpp`) -/

/-- Model of the external `canary::frame_header` storage used by
`header.hpp`: the 29-bit identifier (the EFF/RTR/ERR flag bits of the raw
CAN id are set by the default constructor, never read by the code under
verification, and the canary accessors mask them off), plus the payload
length. -/
structure frame_header where
  id29 : Nat := 0
  length : Nat := 0
deriving DecidableEq, Repr

/-- The canary `id(value)` setter: stores the identifier masked to 29
bits (`CAN_EFF_MASK`). -/
def frame_header.id_set (h : frame_header) (v : Nat) : frame_header :=
  { h with id29 := v % 2 ^ 29 }

/-- The canary `id()` getter: the 29-bit identifier. -/
def frame_header.id (h : frame_header) : Nat := h.id29

/-- `frame_header::payload_length` setter from `header.hpp`. -/
def frame_header.set_payload_length (h : frame_header) (l : Nat) : frame_header :=
  { h with length := l }

/-- `frame_header::frame_header(priority, data_page, pdu_format,
pdu_specific, source_address, payload)` from `header.hpp`, composed with
the delegated pgn constructor: the 29-bit id is
`(clamp(priority) << 26) | (pgn << 8) | source_address` where
`pgn = (data_page << 16) | (pf << 8) | ps`.  The `std::uint8_t` parameter
types truncate `pf`, `ps` and `sa`. -/
def mk_frame_header (priority : Nat) (data_page : Bool) (pf ps sa : Nat) (len : Nat) :
    frame_header :=
  let pgn : Nat := ((if data_page then 1 else 0) <<< 16) ||| (u8 pf <<< 8) ||| u8 ps
  (frame_header.id_set {} ((min priority 7 <<< 26) ||| (pgn <<< 8) ||| u8 sa)).set_payload_length len

/-- `frame_header::pdu_format()` from `header.hpp`: byte 2 of the id. -/
def frame_header.pdu_format (h : frame_header) : Nat := u8 (h.id >>> 16)

/-- `frame_header::pdu_specific()` from `header.hpp`: byte 1 of the id. -/
def frame_header.pdu_specific (h : frame_header) : Nat := u8 (h.id >>> 8)

/-- `frame_header::source_adderess()` from `header.hpp` (spelling as in
the source): byte 0 of the id. -/
def frame_header.source_adderess (h : frame_header) : Nat := u8 h.id

/-- `frame_header::data_page()` from `header.hpp`. -/
def frame_header.data_page (h : frame_header) : Nat :=
  (h.id &&& 0x01000000) >>> 24

/-- `frame_header::priority()` from `header.hpp`. -/
def frame_header.priority (h : frame_header) : Nat :=
  (h.id &&& 0x1C000000) >>> 26

/-- `frame_header::is_broadcast()` from `header.hpp`. -/
def frame_header.is_broadcast (h : frame_header) : Bool :=
  h.pdu_format > PF_PDU1_MAX

/-- `frame_header::pgn()` from `header.hpp`: mask the pgn bits of the id,
clear the PS byte unless broadcast, shift down by 8. -/
def frame_header.pgn (h : frame_header) : Nat :=
  let p := h.id &&& 0x03FFFF00
  let p := if h.is_broadcast then p else p &&& 0xFFFF00FF
  p >>> 8

/-- `frame_header::is_request()` from `header.hpp`. -/
def frame_header.is_request (h : frame_header) : Bool :=
  (h.pgn &&& J1939_PGN_PDU1_MAX) == J1939_PGN_REQUEST

/-- `frame_header::is_claim()` from `header.hpp`. -/
def frame_header.is_claim (h : frame_header) : Bool :=
  (h.pgn &&& J1939_PGN_PDU1_MAX) == J1939_PGN_ADDRESS_CLAIMED

/-- `frame_header::pdu_specific(ps)` setter from `header.hpp`
(`id((id() & ~ps_mask) | (ps << 8))` with `~ps_mask = 0xFFFF00FF`). -/
def frame_header.set_pdu_specific (h : frame_header) (ps : Nat) : frame_header :=
  h.id_set ((h.id &&& 0xFFFF00FF) ||| (u8 ps <<< 8))

/-- `frame_header::source_adderess(sa)` setter from `header.hpp`
(`id((id() & ~ad_mask) | sa)` with `~ad_mask = 0xFFFFFF00`). -/
def frame_header.set_source_adderess (h : frame_header) (sa : Nat) : frame_header :=
  h.id_set ((h.id &&& 0xFFFFFF00) ||| u8 sa)

/-- Modelled from the spec: `transport_protocol.hpp` and its tests call a
`pgn(pgn_t)` setter on the frame-header revision that is not under `src`;
per the spec wire format it writes the 18 PGN bits (reserved, data page,
PF, PS) into bits 25..8 of the id, leaving priority and source address
alone. -/
def frame_header.set_pgn (h : frame_header) (pgn : Nat) : frame_header :=
  h.id_set ((h.id &&& 0xFC0000FF) ||| ((pgn &&& 0x3FFFF) <<< 8))

/-! ### Frame (`frame.hpp`) -/

/-- `jay::frame` from `frame.hpp`: header plus 8-byte payload (the
`jay::payload` array is modelled as a list of bytes, zero-filled on
construction as the `std::array` aggregate is). -/
structure frame where
  header : frame_header := {}
  payload : List Nat := List.replicate 8 0
deriving DecidableEq, Repr

/-- `frame::make_address_request(PS)` from `frame.hpp`. -/
def make_address_request_ps (PS : Nat) : frame :=
  { header := mk_frame_header 6 false PF_REQUEST PS J1939_IDLE_ADDR 3,
    payload := [0x00, 0xEE, 0x00, 0, 0, 0, 0, 0] }

/-- `frame::make_address_request()` from `frame.hpp`: request to the
global address. -/
def make_address_request : frame := make_address_request_ps J1939_NO_ADDR

/-- `frame::make_address_claim(name, address)` from `frame.hpp`. -/
def make_address_claim (name address : Nat) : frame :=
  { header := mk_frame_header 6 false PF_ADDRESS_CLAIM J1939_NO_ADDR address 8,
    payload := name_payload name }

/-- `frame::make_cannot_claim(name)` from `frame.hpp`. -/
def make_cannot_claim (name : Nat) : frame :=
  { header := mk_frame_header 6 false PF_ADDRESS_CLAIM J1939_NO_ADDR J1939_IDLE_ADDR 8,
    payload := name_payload name }

/-! ### Network directory (`network.hpp`) -/

/-- Pointwise update of a map modelled as a function to `Option`
(`operator[]`-assignment, `try_emplace` on a missing key, or `erase` with
`none`). -/
def map_upd (f : Nat → Option Nat) (k : Nat) (v : Option Nat) : Nat → Option Nat :=
  fun x => if x = k then v else f x

/-- `jay::network` from `network.hpp`: the NAME-to-address map and the
address-to-NAME map (the interface name and callback do not affect the
verified operations and are omitted). -/
structure network where
  name_address_map : Nat → Option Nat
  address_name_map : Nat → Option Nat

/-- The freshly constructed, empty network. -/
def network.empty : network := ⟨fun _ => none, fun _ => none⟩

/-- Continuation of `network::try_address_claim` after the initial
lookup/erase block (from the `address > J1939_MAX_UNICAST_ADDR` check to
the end of the function).  `none` models the `std::out_of_range` thrown
by `name_address_map_.at(it->second)` when the occupying name is missing
from the name map. -/
def network.try_address_claim_rest (net : network) (name address : Nat) :
    Option (network × Bool) :=
  if address > J1939_MAX_UNICAST_ADDR then
    some ({ net with name_address_map := map_upd net.name_address_map name (some J1939_IDLE_ADDR) },
      true)
  else
    match net.address_name_map address with
    | none =>
      some ({ net with
          address_name_map := map_upd net.address_name_map address (some name),
          name_address_map := map_upd net.name_address_map name (some address) }, true)
    | some other =>
      if has_priority_over name other then
        match net.name_address_map other with
        | none => none
        | some _ =>
          some ({ net with
              name_address_map :=
                map_upd (map_upd net.name_address_map other (some J1939_IDLE_ADDR)) name
                  (some address),
              address_name_map := map_upd net.address_name_map address (some name) }, true)
      else some (net, false)

/-- `network::try_address_claim` from `network.hpp`.  Returns the updated
network and the C++ return value; `none` models a thrown exception. -/
def network.try_address_claim (net : network) (name address : Nat) :
    Option (network × Bool) :=
  match net.name_address_map name with
  | none =>
    network.try_address_claim_rest
      { net with name_address_map := map_upd net.name_address_map name (some J1939_IDLE_ADDR) }
      name address
  | some old =>
    if address = old then some (net, true)
    else
      network.try_address_claim_rest
        { net with address_name_map := map_upd net.address_name_map old none } name address

/-- `network::release` from `network.hpp`. -/
def network.release (net : network) (name : Nat) : network :=
  match net.name_address_map name with
  | none => net
  | some address =>
    let net1 := { net with name_address_map := map_upd net.name_address_map name (some J1939_IDLE_ADDR) }
    match net1.address_name_map address with
    | none => net1
    | some _ => { net1 with address_name_map := map_upd net1.address_name_map address none }

/-- `network::erase(std::uint8_t)` from `network.hpp`. -/
def network.erase_address (net : network) (address : Nat) : network :=
  match net.address_name_map address with
  | none => net
  | some name =>
    let net1 := { net with address_name_map := map_upd net.address_name_map address none }
    match net1.name_address_map name with
    | none => net1
    | some _ => { net1 with name_address_map := map_upd net1.name_address_map name (some J1939_IDLE_ADDR) }

/-- `network::erase(jay::name)` from `network.hpp`. -/
def network.erase_name (net : network) (name : Nat) : network :=
  match net.name_address_map name with
  | none => net
  | some address =>
    let net1 := { net with name_address_map := map_upd net.name_address_map name none }
    match net1.address_name_map address with
    | none => net1
    | some _ => { net1 with address_name_map := map_upd net1.address_name_map address none }

/-- `network::clear` from `network.hpp`. -/
def network.clear (_net : network) : network := network.empty

/-- `network::available` from `network.hpp`. -/
def network.available (net : network) (address : Nat) : Bool :=
  if address > J1939_MAX_UNICAST_ADDR then false
  else (net.address_name_map address).isNone

/-- `network::claimable` from `network.hpp`. -/
def network.claimable (net : network) (address name : Nat) : Bool :=
  if address > J1939_MAX_UNICAST_ADDR then false
  else
    match net.address_name_map address with
    | some other => has_priority_over name other
    | none => true

/-- `network::find_name` from `network.hpp`. -/
def network.find_name (net : network) (address : Nat) : Option Nat :=
  net.address_name_map address

/-- `network::find_address` from `network.hpp`. -/
def network.find_address (net : network) (name : Nat) : Option Nat :=
  net.name_address_map name

/-- The loop body of `network::search` from `network.hpp`, compiled with
an explicit iteration count: the C++ `for (addr = start; addr < end;
addr++)` runs exactly `end - start` times, returning early on a hit. -/
def network.search_loop (net : network) (name : Nat) (force : Bool) :
    Nat → Nat → Nat
  | _address, 0 => J1939_NO_ADDR
  | address, remaining + 1 =>
    match net.address_name_map address with
    | none => address
    | some other =>
      if has_priority_over name other && force then address
      else net.search_loop name force (address + 1) remaining

/-- `network::search` from `network.hpp`. -/
def network.search (net : network) (name start_address end_address : Nat) (force : Bool) :
    Nat :=
  net.search_loop name force start_address (end_address - start_address)

/-- `network::find_available_address` from `network.hpp`
(`std::clamp(preffed_address, 0, J1939_MAX_UNICAST_ADDR)` is
`min (max p 0) 253`). -/
def network.find_available_address (net : network) (name : Nat) (preffed_address : Nat)
    (force : Bool) : Nat :=
  let scoped_preffed_address := min (max preffed_address 0) J1939_MAX_UNICAST_ADDR
  let address := net.search name scoped_preffed_address J1939_IDLE_ADDR force
  if address = J1939_IDLE_ADDR then net.search name 0 scoped_preffed_address force
  else address

/-- Run a list of `(name, address)` claims through
`network::try_address_claim`, collecting the returned booleans;
propagates the exception case. -/
def network.run_claims (net : network) : List (Nat × Nat) → Option (network × List Bool)
  | [] => some (net, [])
  | (n, a) :: rest =>
    match net.try_address_claim n a with
    | none => none
    | some (net1, ok) =>
      match net1.run_claims rest with
      | none => none
      | some (net2, oks) => some (net2, ok :: oks)

/-! ### Transport protocol (`transport_protocol.hpp`) -/

/-- `TpSession::Direction` from `transport_protocol.hpp`. -/
inductive Direction where
  | Tx
  | Rx
deriving DecidableEq, Repr

/-- TP timeout `T1` (milliseconds) from `transport_protocol.hpp`. -/
def T1 : Nat := 750

/-- TP minimum separation `Tr` (milliseconds) from
`transport_protocol.hpp`. -/
def Tr : Nat := 200

/-- `Control::RTS` from `transport_protocol.hpp`. -/
def Control_RTS : Nat := 0x10

/-- `Control::CTS` from `transport_protocol.hpp`. -/
def Control_CTS : Nat := 0x11

/-- `Control::EOM` from `transport_protocol.hpp`. -/
def Control_EOM : Nat := 0x13

/-- `Control::BAM` from `transport_protocol.hpp`. -/
def Control_BAM : Nat := 0x20

/-- `Control::ABORT` from `transport_protocol.hpp`. -/
def Control_ABORT : Nat := 0xFF

/-- `AbortCode::AlreadyInSession` from `transport_protocol.hpp`. -/
def AbortCode_AlreadyInSession : Nat := 1

/-- `AbortCode::ResourcesBusy` from `transport_protocol.hpp`. -/
def AbortCode_ResourcesBusy : Nat := 2

/-- `TpSession` from `transport_protocol.hpp`, with the member default
values of the struct.  `last_activity` is a steady-clock timestamp in
milliseconds, modelled as a `Nat`. -/
structure TpSession where
  dir : Direction := Direction.Tx
  buffer : List Nat := []
  total_packets : Nat := 0
  next_seq : Nat := 1
  length : Nat := 0
  window_size : Nat := 0xFF
  dest_sa : Nat := 0
  src_sa : Nat := 0
  pgn : Nat := 0
  bam : Bool := false
  last_activity : Nat := 0
  aborted : Bool := false
deriving DecidableEq, Repr

/-- The `sessions_` unordered map of `transport_protocol`, modelled as an
association list from `(source address, destination address)` keys to
sessions. -/
abbrev SessionTable := List ((Nat × Nat) × TpSession)

/-- Lookup in the session table (`sessions_.find`). -/
def sessions_find (l : SessionTable) (k : Nat × Nat) : Option TpSession :=
  (l.find? (fun p => p.1 == k)).map Prod.snd

/-- `sessions_[key] = value`: replace an existing entry or append a new
one. -/
def sessions_upsert (l : SessionTable) (k : Nat × Nat) (v : TpSession) : SessionTable :=
  if (l.find? (fun p => p.1 == k)).isSome then
    l.map (fun p => if p.1 == k then (k, v) else p)
  else l ++ [(k, v)]

/-- `sessions_.erase(key)`. -/
def sessions_erase (l : SessionTable) (k : Nat × Nat) : SessionTable :=
  l.filter (fun p => p.1 != k)

/-- The `jay::bus` used by the transport protocol: the local source
address (`bus_adapter::src_addr_`, default `0xFE`), together with an
oracle giving the result of each successive `send` call and the count of
sends so far (the CAN socket either accepts or refuses each frame; the
oracle makes every interleaving of send results expressible). -/
structure bus_model where
  ok : Nat → Bool
  sends : Nat := 0
  src : Nat := 0xFE

/-- Events observable from the transport protocol and the connection:
frames handed to `bus::send` (attempted sends), payload deliveries to the
`rx_callback_` / `on_data` callback (`data_out` when made by the TP
engine, `data_out_direct` when the connection invokes `on_data_` on a raw
frame — both reach the same application callback, the label records the
call site), and `on_error` invocations. -/
inductive emit where
  | sent (fr : frame)
  | data_out (hdr : frame_header) (payload : List Nat)
  | data_out_direct (hdr : frame_header) (payload : List Nat)
  | error_out
deriving DecidableEq, Repr

/-- `bus::send`: record the attempted frame and consult the oracle for
the result. -/
def bus_send (b : bus_model) (fr : frame) : bus_model × Bool × List emit :=
  ({ b with sends := b.sends + 1 }, b.ok b.sends, [emit.sent fr])

/-- Read payload byte `i` of a frame; the `jay::payload` array element
type is `std::uint8_t`. -/
def pbyte (fr : frame) (i : Nat) : Nat := u8 (fr.payload.getD i 0)

/-- `transport_protocol::make_base_frame` from `transport_protocol.hpp`
(the session parameter is unused in the source and omitted). -/
def make_base_frame (pgn dst src : Nat) : frame :=
  { header := ((((({} : frame_header).set_pgn pgn).set_pdu_specific dst).set_source_adderess
      src).set_payload_length 8),
    payload := List.replicate 8 0 }

/-- `transport_protocol::make_cm_frame` from `transport_protocol.hpp`
(the unused session parameter is omitted). -/
def make_cm_frame (ctrl : Nat) (dst_sa src_sa : Nat) : frame :=
  let fr := make_base_frame PGN_TP_CM dst_sa src_sa
  { fr with payload := fr.payload.set 0 ctrl }

/-- `transport_protocol::make_dt_frame` from `transport_protocol.hpp`. -/
def make_dt_frame (s : TpSession) : frame :=
  make_base_frame PGN_TP_DT s.dest_sa s.src_sa

/-- `transport_protocol::fill_tp_payload` from `transport_protocol.hpp`
(the `first` parameter is never supplied at any call site in the
source). -/
def fill_tp_payload (fr : frame) (s : TpSession) (first : Option Nat := none) : frame :=
  let p := fr.payload
  let p := match first with
    | some f => p.set 0 f
    | none => p
  let p := p.set 1 (s.length &&& 0xFF)
  let p := p.set 2 (u8 (s.length >>> 8))
  let p := p.set 3 (u8 s.total_packets)
  let p := p.set 4 (u8 s.window_size)
  let p := p.set 5 (s.pgn &&& 0xFF)
  let p := p.set 6 ((s.pgn >>> 8) &&& 0xFF)
  let p := p.set 7 ((s.pgn >>> 16) &&& 0xFF)
  { fr with payload := p }

/-- `transport_protocol::get_payload_pgn` from `transport_protocol.hpp`. -/
def get_payload_pgn (fr : frame) : Nat :=
  pbyte fr 5 ||| (pbyte fr 6 <<< 8) ||| (pbyte fr 7 <<< 16)

/-- `transport_protocol::send_abort` from `transport_protocol.hpp`. -/
def send_abort (b : bus_model) (s : TpSession) (code : Nat) : bus_model × List emit :=
  let fr := fill_tp_payload (make_cm_frame Control_ABORT s.src_sa s.dest_sa) s
  let fr := { fr with payload := (((fr.payload.set 1 (u8 code)).set 2 0).set 3 0).set 4 0 }
  let (b1, _ok, es) := bus_send b fr
  (b1, es)

/-- `transport_protocol::send_eom_ack` from `transport_protocol.hpp`. -/
def send_eom_ack (b : bus_model) (s : TpSession) : bus_model × List emit × Bool :=
  if s.bam then (b, [], true)
  else
    let fr := fill_tp_payload (make_cm_frame Control_EOM s.src_sa s.dest_sa) s
    let fr := { fr with payload := fr.payload.set 4 0xFF }
    let (b1, ok, es) := bus_send b fr
    if ok then (b1, es, true) else (b1, es ++ [emit.error_out], false)

/-- `transport_protocol::response_cts` from `transport_protocol.hpp`
(the send result is discarded in the source). -/
def response_cts (b : bus_model) (s : TpSession) : bus_model × List emit :=
  let cts := fill_tp_payload (make_cm_frame Control_CTS s.src_sa s.dest_sa) s
  let p := ((((cts.payload.set 1 (u8 s.window_size)).set 2 (u8 s.next_seq)).set 3 0).set 4 0)
  let (b1, _ok, es) := bus_send b { cts with payload := p }
  (b1, es)

/-- The `while (next_seq <= total_packets && count--)` loop of
`transport_protocol::send_data_packets`, compiled with the count as the
structural fuel: each iteration decrements it, the loop also stops when
`next_seq` exceeds `total_packets`, and with a zero count the C++ loop
exits immediately whichever condition is tested first.  Returns the bus,
the mutated session, the emissions, and whether a send failure aborted
the loop. -/
def send_dt_loop (now : Nat) : Nat → bus_model → TpSession →
    bus_model × TpSession × List emit × Bool
  | 0, b, s => (b, s, [], false)
  | c + 1, b, s =>
    if s.next_seq ≤ s.total_packets then
      let fr := make_dt_frame s
      let fr := { fr with payload := fr.payload.set 0 (u8 s.next_seq) }
      let offset := (s.next_seq - 1) * 7
      let avail := min 7 (s.buffer.length - offset)
      let fr :=
        { fr with
          payload := fr.payload.take 1 ++ (s.buffer.drop offset).take avail
            ++ fr.payload.drop (1 + avail) }
      let (b1, ok, es) := bus_send b fr
      if ok then
        let s1 := { s with next_seq := s.next_seq + 1, last_activity := now }
        let (b2, s2, es2, fail) := send_dt_loop now c b1 s1
        (b2, s2, es ++ es2, fail)
      else
        let (b2, es2) := send_abort b1 s AbortCode_ResourcesBusy
        (b2, s, es ++ [emit.error_out] ++ es2, true)
    else (b, s, [], false)

/-- `transport_protocol::send_data_packets` from
`transport_protocol.hpp`: run the send loop on the session stored at its
key, write the mutated session back (the C++ mutates it through the map
reference), and on completion send the EOM acknowledgement and erase the
session. -/
def send_data_packets (b : bus_model) (sessions : SessionTable) (s : TpSession)
    (now : Nat) (count : Nat) : bus_model × SessionTable × List emit × Bool :=
  let (b1, s1, es, fail) := send_dt_loop now count b s
  let key := (s1.src_sa, s1.dest_sa)
  if fail then (b1, sessions_upsert sessions key s1, es, false)
  else if s1.next_seq > s1.total_packets then
    let (b2, es2, _ok) := send_eom_ack b1 s1
    (b2, sessions_erase sessions key, es ++ es2, true)
  else (b1, sessions_upsert sessions key s1, es, false)

/-- `transport_protocol::start_rx_rts` from `transport_protocol.hpp`. -/
def start_rx_rts (b : bus_model) (sessions : SessionTable) (now : Nat) (fr : frame) :
    bus_model × SessionTable × List emit :=
  if fr.header.pdu_specific != b.src then (b, sessions, [])
  else
    let len := pbyte fr 1 ||| (pbyte fr 2 <<< 8)
    let s : TpSession :=
      { dir := Direction.Rx,
        length := len,
        total_packets := pbyte fr 3,
        window_size := pbyte fr 4,
        dest_sa := if fr.header.is_broadcast then J1939_NO_ADDR else fr.header.pdu_specific,
        src_sa := fr.header.source_adderess,
        pgn := get_payload_pgn fr,
        buffer := List.replicate len 0,
        last_activity := now,
        next_seq := 1 }
    let sessions1 := sessions_upsert sessions (s.src_sa, s.dest_sa) s
    let (b1, es) := response_cts b s
    (b1, sessions1, es)

/-- `transport_protocol::start_rx_bam` from `transport_protocol.hpp`. -/
def start_rx_bam (b : bus_model) (sessions : SessionTable) (now : Nat) (fr : frame) :
    bus_model × SessionTable × List emit :=
  let len := pbyte fr 1 ||| (pbyte fr 2 <<< 8)
  let s : TpSession :=
    { dir := Direction.Rx, bam := true,
      length := len,
      total_packets := pbyte fr 3,
      dest_sa := 0xFF,
      src_sa := fr.header.source_adderess,
      pgn := get_payload_pgn fr,
      buffer := List.replicate len 0,
      last_activity := now }
  (b, sessions_upsert sessions (s.src_sa, s.dest_sa) s, [])

/-- `transport_protocol::handle_cts` from `transport_protocol.hpp`. -/
def handle_cts (b : bus_model) (sessions : SessionTable) (now : Nat) (fr : frame) :
    bus_model × SessionTable × List emit :=
  let key := (b.src, fr.header.source_adderess)
  match sessions_find sessions key with
  | none => (b, sessions, [])
  | some s =>
    let count := pbyte fr 1
    let (b1, sessions1, es, _ok) := send_data_packets b sessions s now count
    (b1, sessions1, es)

/-- `transport_protocol::handle_dt` from `transport_protocol.hpp`.
The C++ writes `min(7, buffer.size() - offset)` with `size_t`
subtraction; for the (inconsistent) case `offset > buffer.size()` the
C++ underflows and reads out of bounds, while the `Nat` subtraction
makes the copy empty. -/
def handle_dt (b : bus_model) (sessions : SessionTable) (now : Nat) (fr : frame) :
    bus_model × SessionTable × List emit :=
  let key := (fr.header.source_adderess, fr.header.pdu_specific)
  match sessions_find sessions key with
  | none => (b, sessions, [])
  | some session =>
    let seq := pbyte fr 0
    if seq < 1 || seq > session.total_packets then (b, sessions, [])
    else
      let offset := (seq - 1) * 7
      let avail := min 7 (session.buffer.length - offset)
      let session1 :=
        { session with
          buffer := session.buffer.take offset ++ (fr.payload.drop 1).take avail
            ++ session.buffer.drop (offset + avail),
          last_activity := now }
      if seq == session1.total_packets then
        let hr := (({} : frame_header).set_pgn session1.pgn).set_source_adderess session1.src_sa
        let hr := if !session1.bam then hr.set_pdu_specific session1.dest_sa else hr
        let hr := hr.set_payload_length session1.buffer.length
        let es0 := [emit.data_out hr session1.buffer]
        let (b1, es1) :=
          if !session1.bam then
            let (b2, es2, _ok) := send_eom_ack b session1
            (b2, es2)
          else (b, [])
        (b1, sessions_erase sessions key, es0 ++ es1)
      else
        if seq % session1.window_size == 0 && !session1.bam then
          let (b1, es) := response_cts b session1
          (b1, sessions_upsert sessions key session1, es)
        else (b, sessions_upsert sessions key session1, [])

/-- `transport_protocol::handle_abort` from `transport_protocol.hpp`. -/
def handle_abort (b : bus_model) (sessions : SessionTable) (fr : frame) :
    bus_model × SessionTable × List emit :=
  let key := (b.src, fr.header.source_adderess)
  match sessions_find sessions key with
  | none => (b, sessions, [])
  | some _s => (b, sessions_erase sessions key, [emit.error_out])

/-- `transport_protocol::handle_cm` from `transport_protocol.hpp`
(`Control::EOM` reaches `complete_rx`, which does nothing). -/
def handle_cm (b : bus_model) (sessions : SessionTable) (now : Nat) (fr : frame) :
    bus_model × SessionTable × List emit :=
  let ctrl := pbyte fr 0
  if ctrl == Control_RTS then start_rx_rts b sessions now fr
  else if ctrl == Control_CTS then handle_cts b sessions now fr
  else if ctrl == Control_BAM then start_rx_bam b sessions now fr
  else if ctrl == Control_EOM then (b, sessions, [])
  else if ctrl == Control_ABORT then handle_abort b sessions fr
  else (b, sessions, [])

/-- `transport_protocol::on_can_frame` from `transport_protocol.hpp`. -/
def on_can_frame (b : bus_model) (sessions : SessionTable) (now : Nat) (fr : frame) :
    bus_model × SessionTable × List emit :=
  if fr.header.pgn == PGN_TP_CM then handle_cm b sessions now fr
  else if fr.header.pgn == PGN_TP_DT then handle_dt b sessions now fr
  else (b, sessions, [])

/-- Feed a list of frames through `on_can_frame`, collecting the
emissions. -/
def on_can_frames (b : bus_model) (sessions : SessionTable) (now : Nat) :
    List frame → bus_model × SessionTable × List emit
  | [] => (b, sessions, [])
  | fr :: rest =>
    let (b1, s1, es1) := on_can_frame b sessions now fr
    let (b2, s2, es2) := on_can_frames b1 s1 now rest
    (b2, s2, es1 ++ es2)

/-- A frame that is a TP.CM ABORT carrying the given abort code. -/
def is_abort_cm_with (fr : frame) (code : Nat) : Bool :=
  fr.header.pgn == PGN_TP_CM && pbyte fr 0 == Control_ABORT && pbyte fr 1 == code

/-- No attempted send in the emission list is a TP.CM ABORT with code
`AlreadyInSession`. -/
def emits_no_already_in_session (l : List emit) : Bool :=
  l.all (fun e =>
    match e with
    | emit.sent fr => !(is_abort_cm_with fr AbortCode_AlreadyInSession)
    | _ => true)

/-- Whether the emission list contains a payload delivery (an `on_data`
invocation by the TP engine). -/
def emits_delivery (l : List emit) : Bool :=
  l.any (fun e =>
    match e with
    | emit.data_out _ _ => true
    | _ => false)

/-- Whether the emission list contains an attempted TP.CM ABORT send
(any code). -/
def emits_abort (l : List emit) : Bool :=
  l.any (fun e =>
    match e with
    | emit.sent fr => fr.header.pgn == PGN_TP_CM && pbyte fr 0 == Control_ABORT
    | _ => false)

/-! ### Connection facade (`j1939_connection.hpp`) -/

/-- Modelled from the spec: `network::get_address` of the network
revision used by `j1939_connection.hpp` is not under `src` (only
`find_address` is); per the spec and the repo's network tests it returns
the stored address of the name and `J1939_NO_ADDR` when the name is not
in the network. -/
def network.get_address (net : network) (n : Nat) : Nat :=
  match net.name_address_map n with
  | some a => a
  | none => J1939_NO_ADDR

/-- The configuration of a `j1939_connection` relevant to receive
filtering: the optional local and target NAMEs. -/
structure j1939_connection where
  local_name : Option Nat := none
  target_name : Option Nat := none

/-- `j1939_connection::check_address` from `j1939_connection.hpp`. -/
def check_address (c : j1939_connection) (net : network) (fr : frame) : Bool :=
  if c.target_name.isNone && c.local_name.isNone then true
  else if fr.header.is_broadcast then
    match c.target_name with
    | some t => net.get_address t == fr.header.source_adderess
    | none => true
  else
    match c.target_name, c.local_name with
    | some t, some l =>
      net.get_address t == fr.header.source_adderess
        && net.get_address l == fr.header.pdu_specific
    | none, some l => net.get_address l == fr.header.pdu_specific
    | some t, none => net.get_address t == fr.header.source_adderess
    | none, none => false

/-- The receive dispatch of `j1939_connection::async_read` from
`j1939_connection.hpp`: when `check_address` accepts, the frame is passed
to `transport_protocol::on_can_frame` and then, unconditionally, to the
`on_data_` callback. -/
def connection_dispatch (c : j1939_connection) (net : network) (b : bus_model)
    (sessions : SessionTable) (now : Nat) (fr : frame) :
    bus_model × SessionTable × List emit :=
  if check_address c net fr then
    let (b1, sessions1, es) := on_can_frame b sessions now fr
    (b1, sessions1, es ++ [emit.data_out_direct fr.header fr.payload])
  else (b, sessions, [])

/-! ### Concrete test frames -/

/-- A TP.CM BAM announcement from source address `0x90`: 20 bytes in 3
packets, transported PGN `0x1234` (mirrors the frame built in the repo's
TP tests). -/
def bam_cm_frame : frame :=
  { header := ((((({} : frame_header).set_pgn PGN_TP_CM).set_pdu_specific
      0xFF).set_source_adderess 0x90).set_payload_length 8),
    payload := [Control_BAM, 20, 0, 3, 0xFF, 0x34, 0x12, 0x00] }

/-- A TP.DT frame from source address `0x90` to the global address with
sequence number 3. -/
def dt3_frame : frame :=
  { header := ((((({} : frame_header).set_pgn PGN_TP_DT).set_pdu_specific
      0xFF).set_source_adderess 0x90).set_payload_length 8),
    payload := [3, 1, 2, 3, 4, 5, 6] }

/-- The bus used by the concrete transport-protocol runs: local source
address `0x01`, every send accepted. -/
def test_bus : bus_model := { ok := fun _ => true, src := 0x01 }

/-- The receive session created by `start_rx_bam` for `bam_cm_frame` at
time 0. -/
def bam_rx_session : TpSession :=
  { dir := Direction.Rx, bam := true, length := 20, total_packets := 3,
    dest_sa := 0xFF, src_sa := 0x90, pgn := 0x1234,
    buffer := List.replicate 20 0, last_activity := 0 }

/-! ### Helper lemmas for the bit-packing proofs -/

/-- A value below `2 ^ k` or-ed onto a multiple of `2 ^ k` adds. -/
theorem lor_mul_step (acc b k : Nat) (h : acc < 2 ^ k) :
    acc ||| b * 2 ^ k = b * 2 ^ k + acc := by
  rw [Nat.lor_comm]
  exact lor_eq_add_of_disjoint (Nat.mul_mod_left b _) h

/-- Arithmetic form of the id built by the field constructor of
`frame_header`. -/
theorem mk_frame_header_id (prio : Nat) (dp : Bool) (pf ps sa len : Nat) :
    (mk_frame_header prio dp pf ps sa len).id =
      min prio 7 * 2 ^ 26 + (if dp then 1 else 0) * 2 ^ 24
        + pf % 256 * 2 ^ 16 + ps % 256 * 2 ^ 8 + sa % 256 := by
  simp only [mk_frame_header, frame_header.id_set, frame_header.set_payload_length,
    frame_header.id, u8, Nat.shiftLeft_eq]
  have hm : prio ⊓ 7 ≤ 7 := min_le_right _ _
  cases dp with
  | false =>
    simp only [Bool.false_eq_true, if_false, Nat.zero_mul, Nat.zero_or]
    rw [lor_eq_add_of_disjoint (a := pf % 256 * 2 ^ 8) (b := ps % 256) (k := 8)
      (Nat.mul_mod_left _ _) (by omega)]
    rw [lor_eq_add_of_disjoint (a := (prio ⊓ 7) * 2 ^ 26)
      (b := (pf % 256 * 2 ^ 8 + ps % 256) * 2 ^ 8) (k := 26) (Nat.mul_mod_left _ _) (by omega)]
    rw [lor_eq_add_of_disjoint (b := sa % 256) (k := 8) (by omega) (by omega)]
    rw [Nat.mod_eq_of_lt (by omega)]
    omega
  | true =>
    simp only [if_true, Nat.one_mul]
    rw [lor_eq_add_of_disjoint (a := 2 ^ 16) (b := pf % 256 * 2 ^ 8) (k := 16)
      (by omega) (by omega)]
    rw [lor_eq_add_of_disjoint (a := 2 ^ 16 + pf % 256 * 2 ^ 8) (b := ps % 256) (k := 8)
      (by omega) (by omega)]
    rw [lor_eq_add_of_disjoint (a := (prio ⊓ 7) * 2 ^ 26)
      (b := (2 ^ 16 + pf % 256 * 2 ^ 8 + ps % 256) * 2 ^ 8) (k := 26)
      (Nat.mul_mod_left _ _) (by omega)]
    rw [lor_eq_add_of_disjoint (b := sa % 256) (k := 8) (by omega) (by omega)]
    rw [Nat.mod_eq_of_lt (by omega)]
    omega

/-- Arithmetic form of the derived PGN of a header built by the field
constructor. -/
theorem mk_frame_header_pgn (prio : Nat) (dp : Bool) (pf ps sa len : Nat) :
    (mk_frame_header prio dp pf ps sa len).pgn =
      (if dp then 1 else 0) * 2 ^ 16 + pf % 256 * 2 ^ 8
        + (if pf % 256 > 0xEF then ps % 256 else 0) := by
  have hid := mk_frame_header_id prio dp pf ps sa len
  have hm : prio ⊓ 7 ≤ 7 := min_le_right _ _
  simp only [frame_header.pgn, frame_header.is_broadcast, frame_header.pdu_format, u8,
    Nat.shiftRight_eq_div_pow, PF_PDU1_MAX, hid]
  rw [show (0x03FFFF00 : Nat) = (2 ^ 18 - 1) <<< 8 from by decide, and_shifted_mask]
  rw [show (0xFFFF00FF : Nat) = 0xFFFF0000 ||| 0xFF from by decide]
  rw [Nat.and_or_distrib_left]
  rw [show (0xFFFF0000 : Nat) = (2 ^ 16 - 1) <<< 16 from by decide, and_shifted_mask]
  rw [show (0xFF : Nat) = 2 ^ 8 - 1 from by decide, and_low_mask]
  cases dp with
  | false =>
    simp only [Bool.false_eq_true, if_false, Nat.zero_mul, Nat.zero_add, Nat.mul_mod_left,
      Nat.or_zero, decide_eq_true_eq]
    split_ifs <;> omega
  | true =>
    simp only [if_true, Nat.one_mul, Nat.mul_mod_left, Nat.or_zero, decide_eq_true_eq]
    split_ifs <;> omega

/-- The PF field of a header built by the field constructor. -/
theorem mk_frame_header_pdu_format (prio : Nat) (dp : Bool) (pf ps sa len : Nat) :
    (mk_frame_header prio dp pf ps sa len).pdu_format = pf % 256 := by
  have hid := mk_frame_header_id prio dp pf ps sa len
  have hm : prio ⊓ 7 ≤ 7 := min_le_right _ _
  simp only [frame_header.pdu_format, u8, Nat.shiftRight_eq_div_pow, hid]
  cases dp <;> simp <;> omega

/-- The data-page field of a header built by the field constructor. -/
theorem mk_frame_header_data_page (prio : Nat) (dp : Bool) (pf ps sa len : Nat) :
    (mk_frame_header prio dp pf ps sa len).data_page = if dp then 1 else 0 := by
  have hid := mk_frame_header_id prio dp pf ps sa len
  have hm : prio ⊓ 7 ≤ 7 := min_le_right _ _
  simp only [frame_header.data_page, u8, Nat.shiftRight_eq_div_pow, hid]
  rw [show (0x01000000 : Nat) = (2 ^ 1 - 1) <<< 24 from by decide, and_shifted_mask]
  cases dp <;> simp <;> omega

/-! ### Claim C6 -/

/-- Claim C6: frame-factory bit patterns.  `make_address_request()` has
29-bit id `0x18EAFFFE`; `make_address_claim(NAME 0, sa)` has id
`0x18EEFF00 | sa` for every source address `sa`; `make_cannot_claim(n)`
has id `0x18EEFFFE` for every NAME `n`. -/
theorem frame_factory_bit_patterns :
    make_address_request.header.id = 0x18EAFFFE
    ∧ (∀ sa : Nat, sa < 256 → (make_address_claim 0 sa).header.id = 0x18EEFF00 ||| sa)
    ∧ (∀ n : Nat, (make_cannot_claim n).header.id = 0x18EEFFFE) := by
  refine ⟨by decide, ?_, ?_⟩
  · intro sa hsa
    have hid := mk_frame_header_id 6 false PF_ADDRESS_CLAIM J1939_NO_ADDR sa 8
    simp only [make_address_claim, PF_ADDRESS_CLAIM, J1939_NO_ADDR] at hid ⊢
    norm_num at hid
    rw [hid, lor_eq_add_of_disjoint (a := 0x18EEFF00) (b := sa) (k := 8) (by decide) (by omega)]
    omega
  · intro n
    simp only [make_cannot_claim]
    decide

/-- Witness for C6: the universally quantified parts applied at source
address `0xAA` and NAME `7`. -/
theorem frame_factory_bit_patterns_witness :
    (0xAA : Nat) < 256
    ∧ (make_address_claim 0 0xAA).header.id = 0x18EEFF00 ||| 0xAA
    ∧ (make_cannot_claim 7).header.id = 0x18EEFFFE :=
  ⟨by decide, frame_factory_bit_patterns.2.1 0xAA (by decide),
    frame_factory_bit_patterns.2.2 7⟩

/-! ### Claim C7 -/

/-- Claim C7: NAME encoding round-trip.  For every 64-bit NAME `n`,
converting to the 8-byte payload and back yields `n`, and the ordering is
little-endian: payload byte 0 is the least significant byte of `n`. -/
theorem name_payload_roundtrip (n : Nat) (h : n < 2 ^ 64) :
    name_of_payload (name_payload n) = n ∧ (name_payload n).getD 0 0 = n % 256 := by
  constructor
  · simp only [name_payload, name_of_payload, u8, List.getD_cons_zero, List.getD_cons_succ,
      Nat.shiftRight_eq_div_pow, Nat.shiftLeft_eq, Nat.zero_or]
    rw [lor_mul_step (n % 256) (n / 2 ^ 8 % 256) 8 (by omega)]
    rw [lor_mul_step (n / 2 ^ 8 % 256 * 2 ^ 8 + n % 256) (n / 2 ^ 16 % 256) 16 (by omega)]
    rw [lor_mul_step (n / 2 ^ 16 % 256 * 2 ^ 16 + (n / 2 ^ 8 % 256 * 2 ^ 8 + n % 256)) (n / 2 ^ 24 % 256) 24 (by omega)]
    rw [lor_mul_step (n / 2 ^ 24 % 256 * 2 ^ 24 + (n / 2 ^ 16 % 256 * 2 ^ 16 + (n / 2 ^ 8 % 256 * 2 ^ 8 + n % 256))) (n / 2 ^ 32 % 256) 32 (by omega)]
    rw [lor_mul_step (n / 2 ^ 32 % 256 * 2 ^ 32 + (n / 2 ^ 24 % 256 * 2 ^ 24 + (n / 2 ^ 16 % 256 * 2 ^ 16 + (n / 2 ^ 8 % 256 * 2 ^ 8 + n % 256)))) (n / 2 ^ 40 % 256) 40 (by omega)]
    rw [lor_mul_step (n / 2 ^ 40 % 256 * 2 ^ 40 + (n / 2 ^ 32 % 256 * 2 ^ 32 + (n / 2 ^ 24 % 256 * 2 ^ 24 + (n / 2 ^ 16 % 256 * 2 ^ 16 + (n / 2 ^ 8 % 256 * 2 ^ 8 + n % 256))))) (n / 2 ^ 48 % 256) 48 (by omega)]
    rw [lor_mul_step (n / 2 ^ 48 % 256 * 2 ^ 48 + (n / 2 ^ 40 % 256 * 2 ^ 40 + (n / 2 ^ 32 % 256 * 2 ^ 32 + (n / 2 ^ 24 % 256 * 2 ^ 24 + (n / 2 ^ 16 % 256 * 2 ^ 16 + (n / 2 ^ 8 % 256 * 2 ^ 8 + n % 256)))))) (n / 2 ^ 56 % 256) 56 (by omega)]
    omega
  · simp [name_payload, u8]

/-- Witness for C7: the round-trip at a concrete hardware NAME. -/
theorem name_payload_roundtrip_witness :
    (0xA00C81045A20021B : Nat) < 2 ^ 64
    ∧ (name_of_payload (name_payload 0xA00C81045A20021B) = 0xA00C81045A20021B
        ∧ (name_payload 0xA00C81045A20021B).getD 0 0 = 0xA00C81045A20021B % 256) :=
  ⟨by decide, name_payload_roundtrip 0xA00C81045A20021B (by decide)⟩

/-! ### Claim C8 -/

/-- Claim C8 counterexample: a header whose PF byte is `0xEA` but whose
data-page bit is set is not classified as a request, so `is_request` is
not equivalent to `PF = 0xEA` independently of the data-page field. -/
theorem header_classification_counterexample :
    (mk_frame_header 6 true 0xEA 0xFF 0x05 8).pdu_format = 0xEA
    ∧ (mk_frame_header 6 true 0xEA 0xFF 0x05 8).is_request = false
    ∧ (mk_frame_header 6 true 0xEE 0xFF 0x05 8).pdu_format = 0xEE
    ∧ (mk_frame_header 6 true 0xEE 0xFF 0x05 8).is_claim = false := by
  decide

/-- Claim C8 as amended: for every header built from its fields,
`is_request()` holds iff PF = 0xEA and the data-page bit is clear, and
`is_claim()` holds iff PF = 0xEE and the data-page bit is clear;
priority, PS and SA are irrelevant.  (The reserved bit is zero for every
header built by this constructor; `pgn()` keeps it and the data-page bit,
so a set data-page bit defeats both classifiers.) -/
theorem header_classification_characterization (prio : Nat) (dp : Bool) (pf ps sa len : Nat) :
    ((mk_frame_header prio dp pf ps sa len).is_request = true
      ↔ (mk_frame_header prio dp pf ps sa len).pdu_format = 0xEA
        ∧ (mk_frame_header prio dp pf ps sa len).data_page = 0)
    ∧ ((mk_frame_header prio dp pf ps sa len).is_claim = true
      ↔ (mk_frame_header prio dp pf ps sa len).pdu_format = 0xEE
        ∧ (mk_frame_header prio dp pf ps sa len).data_page = 0) := by
  have hpgn := mk_frame_header_pgn prio dp pf ps sa len
  rw [mk_frame_header_pdu_format, mk_frame_header_data_page]
  simp only [frame_header.is_request, frame_header.is_claim, hpgn, J1939_PGN_PDU1_MAX,
    J1939_PGN_REQUEST, J1939_PGN_ADDRESS_CLAIMED, beq_iff_eq]
  rw [show (0x3FF00 : Nat) = (2 ^ 10 - 1) <<< 8 from by decide, and_shifted_mask]
  cases dp <;> simp <;> split_ifs <;> omega

/-! ### Claim C1 -/

/-- Claim C1 is violated by the code (code bug): directory reciprocity
fails after a rejected re-claim.  From the empty directory, NAME 0 claims
address 7, NAME 10 claims address 5, and then NAME 10 tries to claim
address 7: `try_address_claim` first erases address 5 from the address
map, then rejects the claim (0 has priority) without idling NAME 10, so
afterwards `find_address(10) = 5` with `5 < IDLE` but `find_name(5)` is
empty instead of NAME 10. -/
theorem directory_reciprocity_failure :
    (network.empty.run_claims [(0, 7), (10, 5), (10, 7)]).map
      (fun r => (r.2, r.1.find_address 10, r.1.find_name 5))
      = some ([true, true, false], some 5, none) := by
  decide

/-! ### Claim C2 -/

/-- Claim C2 is violated by the code (code bug): the fallback search of
`[0, preferred)` in `find_available_address` is dead code.  The first
`search` returns `J1939_NO_ADDR` (255) when `[preferred, 253]` is
exhausted, but the wrap-around guard compares against `J1939_IDLE_ADDR`
(254), so the guard never fires.  Concretely: NAME 0 occupies address
253; for NAME 1 with preferred address 253 (even with `force`), every
address in `[0, 253)` is free, yet the function returns `J1939_NO_ADDR`
instead of 0. -/
theorem find_available_address_wraparound_dead :
    (network.empty.run_claims [(0, 253)]).map
      (fun r => (r.1.find_available_address 1 253 true, r.1.available 0))
      = some (J1939_NO_ADDR, true) := by
  decide

/-! ### Claim C4 -/

/-- Claim C4 counterexample: NAME 1 is not self-configurable (MSB 0) and
its preferred address 0 is occupied by the higher-priority NAME 0 (not
claimable), yet `find_available_address` returns the substitute address 1
— neither the preferred address nor the no-address value. -/
theorem non_self_configurable_substitute :
    name_self_config_address 1 = 0
    ∧ (network.empty.run_claims [(0, 0)]).map
        (fun r => (r.1.claimable 0 1, r.1.find_available_address 1 0 false))
        = some (false, 1) := by
  decide

/-- The search loop never reads the NAME when `force` is false. -/
theorem search_loop_ignores_name (net : network) (n m : Nat) (remaining : Nat) :
    ∀ address,
      net.search_loop n false address remaining = net.search_loop m false address remaining := by
  induction remaining with
  | zero => intro address; rfl
  | succ r ih =>
    intro address
    simp only [network.search_loop]
    cases net.address_name_map address with
    | none => rfl
    | some other => simp only [Bool.and_false, if_false, ih]

/-- Claim C4 as amended: `find_available_address` does not consult the
self-configurable bit (or any other part) of the NAME: without `force`
its result is identical for every NAME, so a non-self-configurable NAME
whose preferred address is taken receives the same substitute address a
self-configurable one would.  The MSB restriction lives only in the state
machine retry guard, not in the network search. -/
theorem find_available_address_ignores_name (net : network) (n m p : Nat) :
    net.find_available_address n p false = net.find_available_address m p false := by
  simp only [network.find_available_address, network.search,
    search_loop_ignores_name net n m]

/-! ### Claim C10 -/

/-- Claim C10: the directory is total on out-of-range addresses.  For
every address above `J1939_MAX_UNICAST_ADDR` (so IDLE or GLOBAL),
`available` and `claimable` return false, and `try_address_claim`
succeeds (no exception: the result is `some`), recording the NAME at the
IDLE address.  The directory hypothesis says the NAME's stored address,
if any, is at most IDLE, which holds for every reachable directory. -/
theorem out_of_range_address_totality (net : network) (n a : Nat)
    (ha : J1939_MAX_UNICAST_ADDR < a)
    (hwf : ∀ x, net.name_address_map n = some x → x ≤ J1939_IDLE_ADDR) :
    net.available a = false ∧ net.claimable a n = false
    ∧ ∃ net', net.try_address_claim n a = some (net', true)
        ∧ net'.name_address_map n = some J1939_IDLE_ADDR := by
  refine ⟨?_, ?_, ?_⟩
  · simp [network.available, ha]
  · simp [network.claimable, ha]
  · cases hn : net.name_address_map n with
    | none =>
      simp only [network.try_address_claim, hn, network.try_address_claim_rest, if_pos ha]
      exact ⟨_, rfl, by simp [map_upd]⟩
    | some old =>
      have hold := hwf old hn
      by_cases he : a = old
      · refine ⟨net, ?_, ?_⟩
        · simp [network.try_address_claim, hn, he]
        · rw [hn]
          have : old = J1939_IDLE_ADDR := by
            simp only [J1939_IDLE_ADDR, J1939_MAX_UNICAST_ADDR] at ha hold ⊢
            omega
          rw [this]
      · simp only [network.try_address_claim, hn, if_neg he, network.try_address_claim_rest,
          if_pos ha]
        exact ⟨_, rfl, by simp [map_upd]⟩

/-- Witness for C10: the totality theorem applied to the global address
255 and NAME 3 in the empty directory. -/
theorem out_of_range_address_totality_witness :
    J1939_MAX_UNICAST_ADDR < 255
    ∧ (network.empty.available 255 = false ∧ network.empty.claimable 255 3 = false
        ∧ ∃ net', network.empty.try_address_claim 3 255 = some (net', true)
            ∧ net'.name_address_map 3 = some J1939_IDLE_ADDR) :=
  ⟨by decide, out_of_range_address_totality network.empty 3 255 (by decide)
    (fun x hx => by simp [network.empty] at hx)⟩

theorem set_pgn_mul_id (pf : Nat) (hpf : pf < 240) :
    (({} : frame_header).set_pgn (pf * 256)).id = pf * 2 ^ 16 := by
  simp only [frame_header.set_pgn, frame_header.id_set, frame_header.id]
  rw [Nat.zero_and, Nat.zero_or]
  rw [show (0x3FFFF : Nat) = 2 ^ 18 - 1 from by decide, and_low_mask]
  simp only [Nat.shiftLeft_eq]
  omega

theorem set_payload_length_id (h : frame_header) (L : Nat) :
    (h.set_payload_length L).id = h.id := rfl

theorem set_pdu_specific_id (h : frame_header) (d : Nat) (hv : h.id < 2 ^ 29) :
    (h.set_pdu_specific d).id = h.id / 2 ^ 16 * 2 ^ 16 + d % 256 * 2 ^ 8 + h.id % 2 ^ 8 := by
  simp only [frame_header.set_pdu_specific, frame_header.id_set, frame_header.id, u8,
    Nat.shiftLeft_eq] at hv ⊢
  rw [show (0xFFFF00FF : Nat) = 0xFFFF0000 ||| 0xFF from by decide, Nat.and_or_distrib_left]
  rw [show (0xFFFF0000 : Nat) = (2 ^ 16 - 1) <<< 16 from by decide, and_shifted_mask]
  rw [show (0xFF : Nat) = 2 ^ 8 - 1 from by decide, and_low_mask]
  rw [Nat.lor_assoc]
  rw [Nat.lor_comm (h.id29 % 2 ^ 8) (d % 256 * 2 ^ 8)]
  rw [lor_eq_add_of_disjoint (a := d % 256 * 2 ^ 8) (b := h.id29 % 2 ^ 8) (k := 8)
    (Nat.mul_mod_left _ _) (by omega)]
  rw [lor_eq_add_of_disjoint (a := h.id29 / 2 ^ 16 % 2 ^ 16 * 2 ^ 16)
    (b := d % 256 * 2 ^ 8 + h.id29 % 2 ^ 8) (k := 16) (Nat.mul_mod_left _ _) (by omega)]
  omega

theorem set_source_adderess_id (h : frame_header) (srca : Nat) (hv : h.id < 2 ^ 29) :
    (h.set_source_adderess srca).id = h.id / 2 ^ 8 * 2 ^ 8 + srca % 256 := by
  simp only [frame_header.set_source_adderess, frame_header.id_set, frame_header.id, u8] at hv ⊢
  rw [show (0xFFFFFF00 : Nat) = (2 ^ 24 - 1) <<< 8 from by decide, and_shifted_mask]
  rw [lor_eq_add_of_disjoint (b := srca % 256) (k := 8) (Nat.mul_mod_left _ _) (by omega)]
  omega

theorem pgn_of_id_sum (h : frame_header) (pf dd ss : Nat)
    (hid : h.id = pf * 2 ^ 16 + dd * 2 ^ 8 + ss)
    (hpf : pf < 240) (hdd : dd < 256) (hss : ss < 256) :
    h.pgn = pf * 256 := by
  simp only [frame_header.pgn, frame_header.is_broadcast, frame_header.pdu_format,
    u8, Nat.shiftRight_eq_div_pow, PF_PDU1_MAX, hid]
  rw [show (0x03FFFF00 : Nat) = (2 ^ 18 - 1) <<< 8 from by decide, and_shifted_mask]
  rw [show (0xFFFF00FF : Nat) = 0xFFFF0000 ||| 0xFF from by decide, Nat.and_or_distrib_left]
  rw [show (0xFFFF0000 : Nat) = (2 ^ 16 - 1) <<< 16 from by decide, and_shifted_mask]
  rw [show (0xFF : Nat) = 2 ^ 8 - 1 from by decide, and_low_mask]
  have hb : ¬((pf * 2 ^ 16 + dd * 2 ^ 8 + ss) / 2 ^ 16 % 256 > 239) := by omega
  simp only [decide_eq_true_eq, hb, if_false, Nat.mul_mod_left, Nat.or_zero]
  omega

theorem make_base_frame_id (pf d srca : Nat) (hpf : pf < 240) :
    (make_base_frame (pf * 256) d srca).header.id
      = pf * 2 ^ 16 + d % 256 * 2 ^ 8 + srca % 256 := by
  have h1 := set_pgn_mul_id pf hpf
  have h2 := set_pdu_specific_id (({} : frame_header).set_pgn (pf * 256)) d (by omega)
  rw [h1] at h2
  have h3 := set_source_adderess_id
    ((({} : frame_header).set_pgn (pf * 256)).set_pdu_specific d) srca (by rw [h2]; omega)
  rw [h2] at h3
  simp only [make_base_frame, set_payload_length_id]
  rw [h3]
  omega

theorem make_base_frame_pgn_pf (pf d srca : Nat) (hpf : pf < 240) :
    (make_base_frame (pf * 256) d srca).header.pgn = pf * 256 :=
  pgn_of_id_sum _ pf (d % 256) (srca % 256) (make_base_frame_id pf d srca hpf) hpf
    (by omega) (by omega)

theorem make_cm_frame_header (ctrl dst src : Nat) :
    (make_cm_frame ctrl dst src).header = (make_base_frame PGN_TP_CM dst src).header := rfl

theorem make_cm_frame_pgn (ctrl dst src : Nat) :
    (make_cm_frame ctrl dst src).header.pgn = PGN_TP_CM := by
  rw [make_cm_frame_header, show PGN_TP_CM = 0xEC * 256 from by decide]
  exact make_base_frame_pgn_pf 0xEC dst src (by decide)

theorem fill_tp_payload_header (fr : frame) (s : TpSession) :
    (fill_tp_payload fr s).header = fr.header := rfl

theorem not_already_of_ctrl (fr : frame) (hc : pbyte fr 0 ≠ Control_ABORT) :
    is_abort_cm_with fr AbortCode_AlreadyInSession = false := by
  simp only [is_abort_cm_with, Bool.and_eq_false_iff]
  left
  right
  simpa using hc

theorem response_cts_no_already (b : bus_model) (s : TpSession) :
    emits_no_already_in_session (response_cts b s).2 = true := by
  simp only [response_cts, bus_send, emits_no_already_in_session, List.all, Bool.and_true,
    Bool.not_eq_true']
  exact not_already_of_ctrl _ (by simp [fill_tp_payload, make_cm_frame, make_base_frame,
    pbyte, List.set, u8, Control_CTS, Control_ABORT])

theorem emits_abort_append (l1 l2 : List emit) :
    emits_abort (l1 ++ l2) = (emits_abort l1 || emits_abort l2) := by
  simp [emits_abort, List.any_append]

theorem emits_delivery_append (l1 l2 : List emit) :
    emits_delivery (l1 ++ l2) = (emits_delivery l1 || emits_delivery l2) := by
  simp [emits_delivery, List.any_append]

theorem send_eom_ack_no_abort (b : bus_model) (s : TpSession) :
    emits_abort (send_eom_ack b s).2.1 = false ∧ emits_delivery (send_eom_ack b s).2.1 = false := by
  simp only [send_eom_ack]
  split
  · exact ⟨rfl, rfl⟩
  · simp only [bus_send]
    split <;>
    · constructor
      · simp only [emits_abort, List.any_append, List.any_cons, List.any_nil, Bool.or_false]
        simp [fill_tp_payload, make_cm_frame, make_base_frame, pbyte, List.set, u8,
          Control_EOM, Control_ABORT]
      · rfl

theorem response_cts_no_abort (b : bus_model) (s : TpSession) :
    emits_abort (response_cts b s).2 = false ∧ emits_delivery (response_cts b s).2 = false := by
  simp only [response_cts, bus_send]
  constructor
  · simp only [emits_abort, List.any_cons, List.any_nil, Bool.or_false]
    simp [fill_tp_payload, make_cm_frame, make_base_frame, pbyte, List.set, u8,
      Control_CTS, Control_ABORT]
  · rfl

/-- Claim C3 as amended: `handle_dt` never sends an abort, ignores DT
frames with no matching session or an out-of-range sequence number, and
delivers the reassembled payload via `on_data` exactly when the incoming
sequence number equals the session's `total_packets` (and is at least 1)
— regardless of which or how many earlier DT packets were observed.
Gaps and duplicates are neither detected nor aborted. -/
theorem handle_dt_behaviour (b : bus_model) (T : SessionTable) (now : Nat) (fr : frame) :
    emits_abort (handle_dt b T now fr).2.2 = false
    ∧ (sessions_find T (fr.header.source_adderess, fr.header.pdu_specific) = none →
        handle_dt b T now fr = (b, T, []))
    ∧ (∀ sess, sessions_find T (fr.header.source_adderess, fr.header.pdu_specific) = some sess →
        (emits_delivery (handle_dt b T now fr).2.2 = true
          ↔ 1 ≤ pbyte fr 0 ∧ pbyte fr 0 = sess.total_packets)) := by
  refine ⟨?_, ?_, ?_⟩
  · simp only [handle_dt]
    split
    · rfl
    · split
      · rfl
      · split
        · split
          · simp only [emits_abort_append, Bool.or_eq_false_iff]
            exact ⟨rfl, (send_eom_ack_no_abort b _).1⟩
          · simp only [emits_abort_append, Bool.or_eq_false_iff]
            exact ⟨rfl, rfl⟩
        · split
          · exact (response_cts_no_abort b _).1
          · rfl
  · intro hnone
    simp only [handle_dt, hnone]
  · intro sess hfind
    simp only [handle_dt, hfind]
    split
    · rename_i hbad
      simp only [Bool.or_eq_true, decide_eq_true_eq] at hbad
      constructor
      · intro hdel
        simp [emits_delivery] at hdel
      · intro ⟨h1, h2⟩
        omega
    · rename_i hok
      simp only [Bool.or_eq_true, decide_eq_true_eq, not_or] at hok
      split
      · rename_i hfin
        simp only [beq_iff_eq] at hfin
        constructor
        · intro _
          refine ⟨by omega, hfin⟩
        · intro _
          split
          · simp only [emits_delivery_append, Bool.or_eq_true]
            left
            rfl
          · simp only [emits_delivery_append, Bool.or_eq_true]
            left
            rfl
      · rename_i hfin
        simp only [beq_iff_eq] at hfin
        constructor
        · intro hdel
          exfalso
          revert hdel
          split
          · rw [(response_cts_no_abort b _).2]
            simp
          · simp [emits_delivery]
        · intro ⟨h1, h2⟩
          exact absurd h2 hfin

/-- Claim C5 as amended: every frame accepted by `check_address` is
passed both to the transport-protocol engine and to the `on_data`
callback; the TP engine acts only on TP.CM/TP.DT PGNs (for any other
PGN the session table is untouched and `on_data` is the sole effect). -/
theorem connection_dispatch_both_consumers (c : j1939_connection) (net : network)
    (b : bus_model) (T : SessionTable) (now : Nat) (fr : frame)
    (hacc : check_address c net fr = true) :
    (connection_dispatch c net b T now fr).2.2
      = (on_can_frame b T now fr).2.2 ++ [emit.data_out_direct fr.header fr.payload]
    ∧ (fr.header.pgn ≠ PGN_TP_CM → fr.header.pgn ≠ PGN_TP_DT →
        (connection_dispatch c net b T now fr).2.2 = [emit.data_out_direct fr.header fr.payload]
        ∧ (connection_dispatch c net b T now fr).2.1 = T) := by
  rcases hoc : on_can_frame b T now fr with ⟨b1, T1, es⟩
  constructor
  · simp only [connection_dispatch, hacc, if_true, hoc]
  · intro hcm hdt
    have hoc2 : on_can_frame b T now fr = (b, T, []) := by
      simp only [on_can_frame]
      rw [if_neg (by simpa using hcm), if_neg (by simpa using hdt)]
    simp only [connection_dispatch, hacc, if_true, hoc2]
    exact ⟨by trivial, by trivial⟩

/-- Claim C3 counterexample: after a BAM announcement of 3 packets, a
single DT frame with sequence number 3 — a gapped sequence, only one DT
packet ever observed — makes the receiver deliver `on_data`, and no
abort is sent.  The claim requires delivery only after 3 contiguous DT
packets and an abort on the gap. -/
theorem tp_delivery_without_contiguity :
    emits_delivery (on_can_frames test_bus [] 0 [bam_cm_frame, dt3_frame]).2.2 = true
    ∧ emits_abort (on_can_frames test_bus [] 0 [bam_cm_frame, dt3_frame]).2.2 = false
    ∧ [bam_cm_frame, dt3_frame].countP (fun fr => fr.header.pgn == PGN_TP_DT) = 1
    ∧ pbyte bam_cm_frame 3 = 3 := by
  decide

/-- Witness for C3: the characterization applied to the concrete BAM
session and the sequence-3 DT frame. -/
theorem handle_dt_behaviour_witness :
    emits_abort (handle_dt test_bus [((0x90, 0xFF), bam_rx_session)] 0 dt3_frame).2.2 = false
    ∧ (emits_delivery (handle_dt test_bus [((0x90, 0xFF), bam_rx_session)] 0
          dt3_frame).2.2 = true
        ↔ 1 ≤ pbyte dt3_frame 0 ∧ pbyte dt3_frame 0 = bam_rx_session.total_packets) :=
  ⟨(handle_dt_behaviour test_bus [((0x90, 0xFF), bam_rx_session)] 0 dt3_frame).1,
   (handle_dt_behaviour test_bus [((0x90, 0xFF), bam_rx_session)] 0 dt3_frame).2.2
     bam_rx_session (by decide)⟩

/-- Claim C5 counterexample: a frame with PGN TP.CM accepted by
`check_address` is handed to the TP engine (which installs a session)
and ALSO delivered to the `on_data` callback, so a frame is not routed
to exactly one of the two consumers and `on_data` is not reserved for
non-TP messages. -/
theorem tp_frame_reaches_on_data :
    check_address {} network.empty bam_cm_frame = true
    ∧ bam_cm_frame.header.pgn = PGN_TP_CM
    ∧ (connection_dispatch {} network.empty test_bus [] 0 bam_cm_frame).2.2
        = [emit.data_out_direct bam_cm_frame.header bam_cm_frame.payload]
    ∧ (connection_dispatch {} network.empty test_bus [] 0 bam_cm_frame).2.1 ≠ [] := by
  decide

/-- Witness for C5: the amended dispatch property applied to an
accepted non-TP frame (an address request). -/
theorem connection_dispatch_both_consumers_witness :
    check_address {} network.empty make_address_request = true
    ∧ ((connection_dispatch {} network.empty test_bus [] 0 make_address_request).2.2
        = (on_can_frame test_bus [] 0 make_address_request).2.2
          ++ [emit.data_out_direct make_address_request.header make_address_request.payload]
      ∧ ((connection_dispatch {} network.empty test_bus [] 0 make_address_request).2.2
          = [emit.data_out_direct make_address_request.header make_address_request.payload]
        ∧ (connection_dispatch {} network.empty test_bus [] 0 make_address_request).2.1
          = [])) :=
  ⟨by decide,
   (connection_dispatch_both_consumers {} network.empty test_bus [] 0 make_address_request
      (by decide)).1,
   (connection_dispatch_both_consumers {} network.empty test_bus [] 0 make_address_request
      (by decide)).2 (by decide) (by decide)⟩

end Jay
